import Mathlib

/-!
Verification development for the response-generation subsystem of the
TeamOS gamified task planner (files `ai_config.py`, `ai_service.py`,
`admin.py`).  The Python code is shallowly embedded: module state becomes
an explicit `MgrState` value threaded through the functions, external
effects (model calls, wall-clock time, random draws, environment
variables) become explicit oracle parameters, and Python exceptions
become `Except` results.  MD5 cache keys are modelled by the serialized
key-input string itself (deterministic; hash collisions are not
modelled).  File persistence (`_save_configuration`) and logging are
no-ops with respect to the modelled state and are omitted.
-/

namespace TeamOS

/-- A Python primitive value as carried in a `generate` context mapping
(numbers, strings, booleans) or stored in response metadata (`None` for
an absent token count). -/
inductive Value where
  | str (s : String)
  | int (n : Int)
  | bool (b : Bool)
  | null
deriving DecidableEq, Repr

/-- Python truthiness of a primitive value (`if mood:` etc.). -/
def Value.truthy : Value → Bool
  | .str s => !(s == "")
  | .int n => n != 0
  | .bool b => b
  | .null => false

/-- Python `str(v)` for a primitive value. -/
def pyStr : Value → String
  | .str s => s
  | .int n => toString n
  | .bool b => if b then "True" else "False"
  | .null => "None"

/-- Python `repr(v)` for a primitive value (strings get quotes). -/
def reprValue : Value → String
  | .str s => "\x27" ++ s ++ "\x27"
  | .int n => toString n
  | .bool b => if b then "True" else "False"
  | .null => "None"

/-- Python `x == s` where `s` is a `str` and `x` an arbitrary primitive:
true only when `x` is an equal string. -/
def valEqStr (s : String) (v : Value) : Bool :=
  match v with
  | .str t => s == t
  | _ => false

/-- `AIProvider` enum from `ai_config.py` (`local` is renamed
`localProvider` because `local` is a Lean keyword). -/
inductive AIProvider where
  | openai
  | anthropic
  | localProvider
  | fallback
deriving DecidableEq, Repr

/-- The `.value` string of each `AIProvider` member. -/
def AIProvider.value : AIProvider → String
  | .openai => "openai"
  | .anthropic => "anthropic"
  | .localProvider => "local"
  | .fallback => "fallback"

/-- `AIProvider(s)`: enum lookup by value string, `none` models the
`ValueError` path. -/
def AIProvider.ofString? (s : String) : Option AIProvider :=
  if s = "openai" then some .openai
  else if s = "anthropic" then some .anthropic
  else if s = "local" then some .localProvider
  else if s = "fallback" then some .fallback
  else none

/-- `SubjectMatter` enum from `ai_config.py`. -/
inductive SubjectMatter where
  | task_creation
  | task_completion
  | motivation
  | celebration
  | encouragement
  | productivity_tips
  | goal_setting
  | time_management
  | habit_formation
  | stress_management
  | team_collaboration
  | project_planning
deriving DecidableEq, Repr

/-- The `.value` string of each `SubjectMatter` member. -/
def SubjectMatter.value : SubjectMatter → String
  | .task_creation => "task_creation"
  | .task_completion => "task_completion"
  | .motivation => "motivation"
  | .celebration => "celebration"
  | .encouragement => "encouragement"
  | .productivity_tips => "productivity_tips"
  | .goal_setting => "goal_setting"
  | .time_management => "time_management"
  | .habit_formation => "habit_formation"
  | .stress_management => "stress_management"
  | .team_collaboration => "team_collaboration"
  | .project_planning => "project_planning"

/-- `SubjectMatter(s)`: enum lookup by value string. -/
def SubjectMatter.ofString? (s : String) : Option SubjectMatter :=
  if s = "task_creation" then some .task_creation
  else if s = "task_completion" then some .task_completion
  else if s = "motivation" then some .motivation
  else if s = "celebration" then some .celebration
  else if s = "encouragement" then some .encouragement
  else if s = "productivity_tips" then some .productivity_tips
  else if s = "goal_setting" then some .goal_setting
  else if s = "time_management" then some .time_management
  else if s = "habit_formation" then some .habit_formation
  else if s = "stress_management" then some .stress_management
  else if s = "team_collaboration" then some .team_collaboration
  else if s = "project_planning" then some .project_planning
  else none

/-- `AIModelConfig` dataclass: one callable model endpoint.  Times are in
seconds, temperatures and delays are rationals (Python floats carry no
rounding-relevant arithmetic here). -/
structure AIModelConfig where
  provider : AIProvider
  model_name : String
  api_key : Option String := none
  api_base : Option String := none
  max_tokens : Int := 150
  temperature : ℚ := 7/10
  timeout : Int := 10
  retry_attempts : Nat := 3
  retry_delay : ℚ := 1
deriving DecidableEq, Repr

/-- `SubjectMatterConfig` dataclass: per-subject configuration. -/
structure SubjectMatterConfig where
  subject : SubjectMatter
  primary_model : AIModelConfig
  fallback_model : Option AIModelConfig := none
  system_prompt : String := ""
  context_template : String := ""
  response_format : String := "text"
  max_context_length : Int := 1000
  cache_responses : Bool := true
  cache_duration_hours : Nat := 24
deriving DecidableEq, Repr

/-- `FallbackResponse` dataclass: one authored static response.
`created_at` is an abstract timestamp. -/
structure FallbackResponse where
  subject : SubjectMatter
  context_type : String
  mood : String
  response_text : String
  animation_type : String
  weight : Nat := 1
  created_at : Nat := 0
deriving DecidableEq, Repr

/-- `AIResponse` object from `ai_service.py` (its `__init__` fields;
`timestamp` is set at construction and only surfaces through
`to_dict`). -/
structure AIResponse where
  text : String
  animation_type : String := "bounce"
  mood : String := "cheerful"
  source : String := "ai"
  metadata : List (String × Value) := []
deriving DecidableEq, Repr

/-- The dictionary produced by `AIResponse.to_dict`: the five `__init__`
fields plus a `timestamp` key.  This is exactly what gets stored in the
response cache. -/
structure RespDict where
  text : String
  animation_type : String
  mood : String
  source : String
  metadata : List (String × Value)
  timestamp : Nat
deriving DecidableEq, Repr

/-- `AIResponse.to_dict` (the ISO timestamp string is abstracted to the
numeric instant). -/
def AIResponse.to_dict (r : AIResponse) (now : Nat) : RespDict :=
  { text := r.text, animation_type := r.animation_type, mood := r.mood,
    source := r.source, metadata := r.metadata, timestamp := now }

/-- Python exceptions that can cross the modelled function boundaries.
`AIServiceError` is tracked separately (`GenErr`) because the
orchestrator catches it specifically. -/
inductive PyError where
  | typeError (msg : String)
  | valueError (msg : String)
  | keyError (key : String)
  | indexError
deriving DecidableEq, Repr

/-- The keys of the dict produced by `AIResponse.to_dict`. -/
def toDictKeys : List String :=
  ["text", "animation_type", "mood", "source", "metadata", "timestamp"]

/-- The keyword parameter names accepted by `AIResponse.__init__`. -/
def initParamNames : List String :=
  ["text", "animation_type", "mood", "source", "metadata"]

/-- `AIResponse(**cached_response)`: Python rejects any keyword argument
that is not an `__init__` parameter with a `TypeError`.  Since the
cached dict always carries the extra `timestamp` key, this models the
reconstruction of an `AIResponse` from a cached `to_dict` dictionary. -/
def AIResponse.ofRespDict (d : RespDict) : Except PyError AIResponse :=
  match toDictKeys.find? (fun k => !(initParamNames.contains k)) with
  | some k =>
      Except.error (PyError.typeError
        ("__init__ got an unexpected keyword argument " ++ k))
  | none =>
      Except.ok { text := d.text, animation_type := d.animation_type,
                  mood := d.mood, source := d.source, metadata := d.metadata }

/-- One entry of `response_cache`: the stored dict and its absolute
expiry instant. -/
structure CacheEntry where
  response : RespDict
  expiry : Nat
deriving DecidableEq, Repr

/-- Association-list lookup (Python `dict.get`). -/
def lookupA {α β : Type} [DecidableEq α] : List (α × β) → α → Option β
  | [], _ => none
  | (k, v) :: rest, a => if k = a then some v else lookupA rest a

/-- Association-list update (Python `dict[k] = v`). -/
def upsertA {α β : Type} [DecidableEq α] : List (α × β) → α → β → List (α × β)
  | [], a, b => [(a, b)]
  | (k, v) :: rest, a, b =>
      if k = a then (a, b) :: rest else (k, v) :: upsertA rest a b

/-- Association-list deletion (Python `del dict[k]`). -/
def removeA {α β : Type} [DecidableEq α] : List (α × β) → α → List (α × β)
  | [], _ => []
  | (k, v) :: rest, a =>
      if k = a then removeA rest a else (k, v) :: removeA rest a

/-- The mutable state of `AIConfigurationManager`. -/
structure MgrState where
  subject_configs : List (SubjectMatter × SubjectMatterConfig) := []
  fallback_responses : List (SubjectMatter × List FallbackResponse) := []
  connectivity_status : List (AIProvider × Bool) := []
  last_sync_attempt : List (AIProvider × Nat) := []
  response_cache : List (String × CacheEntry) := []
deriving DecidableEq, Repr

/-- Environment variables consulted by the connectivity probe. -/
structure Env where
  openai_api_key : Option String := none
  openai_api_base : Option String := none
deriving DecidableEq, Repr

/-- Python truthiness of `os.getenv` results: unset or empty is falsy. -/
def optTruthy : Option String → Bool
  | some s => !(s == "")
  | none => false

/-- `AIConfigurationManager.get_subject_config`. -/
def get_subject_config (st : MgrState) (subject : SubjectMatter) :
    Option SubjectMatterConfig :=
  lookupA st.subject_configs subject

/-- `AIConfigurationManager.update_subject_config` (the write to the
config file is not part of the modelled state). -/
def update_subject_config (st : MgrState) (subject : SubjectMatter)
    (config : SubjectMatterConfig) : MgrState :=
  { st with subject_configs := upsertA st.subject_configs subject config }

/-- The 5-minute connectivity cool-down window, in seconds. -/
def coolDownSeconds : Nat := 300

/-- `AIConfigurationManager.check_connectivity`.  The probe itself is the
environment-variable check the source performs; `now` is the current
instant in seconds.  A missing `last_sync_attempt` entry stands for
`datetime.min`, which always lies outside the cool-down window. -/
def check_connectivity (st : MgrState) (env : Env) (now : Nat)
    (provider : AIProvider) : Bool × MgrState :=
  if provider = AIProvider.fallback then (true, st)
  else
    let withinWindow : Bool :=
      match lookupA st.last_sync_attempt provider with
      | some last => decide (now - last < coolDownSeconds)
      | none => false
    if withinWindow then
      ((lookupA st.connectivity_status provider).getD false, st)
    else
      let connected : Bool :=
        if provider = AIProvider.openai then
          optTruthy env.openai_api_key && optTruthy env.openai_api_base
        else true
      (connected,
        { st with
          connectivity_status := upsertA st.connectivity_status provider connected,
          last_sync_attempt := upsertA st.last_sync_attempt provider now })

/-- Total selection weight of a candidate list. -/
def totalWeight (l : List FallbackResponse) : Nat :=
  (l.map (fun r => r.weight)).sum

/-- Cumulative-weight selection: walk the list subtracting weights until
the draw lands inside a candidate's mass. -/
def pickByWeight : List FallbackResponse → Nat → Except PyError FallbackResponse
  | [], _ => Except.error (PyError.valueError "empty population")
  | r :: rest, k =>
      if k < r.weight then Except.ok r else pickByWeight rest (k - r.weight)

/-- `random.choices(population, weights=..., k=1)[0]`: raises
`ValueError` when the total weight is zero (in particular on an empty
population), otherwise draws by cumulative weight.  The random draw is
supplied as an oracle natural number reduced modulo the total mass. -/
def randomChoices (l : List FallbackResponse) (rand : Nat) :
    Except PyError FallbackResponse :=
  if totalWeight l = 0 then
    Except.error (PyError.valueError "total of weights must be greater than zero")
  else pickByWeight l (rand % totalWeight l)

/-- The two-stage filter of
`AIConfigurationManager.get_fallback_response`: restrict to the matching
context type unless that empties the list, then restrict to the matching
mood (when the mood value is truthy) unless that empties the list. -/
def fallback_candidates (responses : List FallbackResponse)
    (context_type mood : Value) : List FallbackResponse :=
  let filtered_responses :=
    responses.filter (fun r => valEqStr r.context_type context_type)
  let filtered_responses' :=
    if filtered_responses.isEmpty then responses else filtered_responses
  if mood.truthy then
    let mood_filtered :=
      filtered_responses'.filter (fun r => valEqStr r.mood mood)
    if mood_filtered.isEmpty then filtered_responses' else mood_filtered
  else filtered_responses'

/-- The synthesized generic response returned for a subject with no
authored responses.  Python stores the raw context-type value in the
`context_type` field; that field is never read on this path, so a
non-string value is collapsed to a placeholder string. -/
def genericFallback (subject : SubjectMatter) (context_type : Value) :
    FallbackResponse :=
  { subject := subject,
    context_type := match context_type with | Value.str s => s | _ => "",
    mood := "cheerful",
    response_text := "🎂 Sweet! Let\x27s keep the productivity celebration going! ✨",
    animation_type := "bounce" }

/-- `AIConfigurationManager.get_fallback_response`.  The `context_type`
and `mood` arguments are the raw values taken from the caller's context
dict (Python does not enforce the `str` hints). -/
def get_fallback_response (st : MgrState) (subject : SubjectMatter)
    (context_type mood : Value) (rand : Nat) : Except PyError FallbackResponse :=
  let responses := (lookupA st.fallback_responses subject).getD []
  if responses.isEmpty then
    Except.ok (genericFallback subject context_type)
  else
    randomChoices (fallback_candidates responses context_type mood) rand

/-- `AIConfigurationManager.add_fallback_response`. -/
def add_fallback_response (st : MgrState) (response : FallbackResponse) :
    MgrState :=
  let cur := (lookupA st.fallback_responses response.subject).getD []
  { st with fallback_responses :=
      upsertA st.fallback_responses response.subject (cur ++ [response]) }

/-- `AIConfigurationManager.cache_response`: store under the key with an
absolute expiry `duration_hours` from now. -/
def cache_response (st : MgrState) (now : Nat) (cache_key : String)
    (response : RespDict) (duration_hours : Nat) : MgrState :=
  let entry : CacheEntry := { response := response, expiry := now + duration_hours * 3600 }
  { st with response_cache := upsertA st.response_cache cache_key entry }

/-- `AIConfigurationManager.get_cached_response`: return the stored dict
while unexpired; delete the entry (and return nothing) once expired. -/
def get_cached_response (st : MgrState) (now : Nat) (cache_key : String) :
    Option RespDict × MgrState :=
  match lookupA st.response_cache cache_key with
  | some cached =>
      if now < cached.expiry then (some cached.response, st)
      else (none, { st with response_cache := removeA st.response_cache cache_key })
  | none => (none, st)

/-- `AIConfigurationManager.clear_cache`. -/
def clear_cache (st : MgrState) : MgrState :=
  { st with response_cache := [] }

/-- A `generate` context mapping: string keys to primitive values. -/
def Ctx : Type := List (String × Value)

/-- `context.get(key, default)`. -/
def ctxGetD (ctx : Ctx) (key : String) (default : Value) : Value :=
  (lookupA ctx key).getD default

/-- Python `repr` of a context dict (key order as stored; string escaping
beyond quoting is not modelled). -/
def reprCtx (ctx : Ctx) : String :=
  "\x7b" ++
    String.intercalate ", "
      (ctx.map (fun p => "\x27" ++ p.1 ++ "\x27: " ++ reprValue p.2)) ++
    "\x7d"

/-- JSON rendering of a primitive value (string escaping is not
modelled; cache-key claims rely only on determinism). -/
def jsonOfValue : Value → String
  | .str s => "\x22" ++ s ++ "\x22"
  | .int n => toString n
  | .bool b => if b then "true" else "false"
  | .null => "null"

/-- Code-point comparison of characters. -/
def charLt (a b : Char) : Bool := Nat.blt a.toNat b.toNat

/-- Lexicographic code-point comparison of character lists — the string
order used by Python when sorting dict keys. -/
def charListLt : List Char → List Char → Bool
  | [], [] => false
  | [], _ :: _ => true
  | _ :: _, [] => false
  | a :: as, b :: bs =>
      if charLt a b then true
      else if a == b then charListLt as bs
      else false

/-- String comparison by code points. -/
def strLt (a b : String) : Bool := charListLt a.toList b.toList

/-- Insert a pair into a key-sorted list (ascending). -/
def insertByKey (p : String × Value) : List (String × Value) → List (String × Value)
  | [] => [p]
  | q :: rest => if strLt p.1 q.1 then p :: q :: rest else q :: insertByKey p rest

/-- Sort context pairs by key, as `json.dumps(..., sort_keys=True)`. -/
def sortCtx : Ctx → List (String × Value)
  | [] => []
  | p :: rest => insertByKey p (sortCtx rest)

/-- `json.dumps(context, sort_keys=True, default=str)`. -/
def canonJson (ctx : Ctx) : String :=
  "\x7b" ++
    String.intercalate ", "
      ((sortCtx ctx).map (fun p => "\x22" ++ p.1 ++ "\x22: " ++ jsonOfValue p.2)) ++
    "\x7d"

/-- `AIService._generate_cache_key`: the MD5 hash of
`subject.value ++ ":" ++ canonical-JSON(context)` is modelled by that
input string itself (the hash is deterministic; collisions are not
modelled). -/
def _generate_cache_key (subject : SubjectMatter) (context : Ctx) : String :=
  subject.value ++ ":" ++ canonJson context

/-- Core of Python `template.format(**context)` for simple named
placeholders, as a one-pass scanner: outside a placeholder (`acc =
none`) an opening brace starts field-name accumulation and a bare
closing brace raises `ValueError`; inside a placeholder (`acc = some
name`, the name reversed) a closing brace resolves the field —
substituting `str(value)`, raising `KeyError` for a missing key and
`IndexError` for an empty (auto-numbered positional) field — and the end
of the template raises `ValueError`.  Brace escaping (`\x7b\x7b`),
conversion and format-spec suffixes are not modelled (no template in the
repository uses them). -/
def formatChars (ctx : Ctx) (acc : Option (List Char)) :
    List Char → Except PyError (List Char)
  | [] =>
      match acc with
      | none => Except.ok []
      | some _ => Except.error (PyError.valueError "expected closing brace")
  | c :: rest =>
      match acc with
      | none =>
          if c = '\x7b' then formatChars ctx (some []) rest
          else if c = '\x7d' then
            Except.error (PyError.valueError "single brace in format string")
          else (formatChars ctx none rest).map (fun out => c :: out)
      | some name =>
          if c = '\x7d' then
            if name.isEmpty then Except.error PyError.indexError
            else
              match lookupA ctx (String.mk name.reverse) with
              | some v =>
                  (formatChars ctx none rest).map (fun out => (pyStr v).toList ++ out)
              | none => Except.error (PyError.keyError (String.mk name.reverse))
          else formatChars ctx (some (c :: name)) rest

/-- `template.format(**context)`. -/
def pyFormat (template : String) (ctx : Ctx) : Except PyError String :=
  (formatChars ctx none template.toList).map String.mk

/-- `AIService._format_user_prompt`: use the subject's template when one
is configured; fall back to a generic prompt when the subject is
unconfigured or the template is empty; on a `KeyError` (missing context
key) fall back to a generic prompt naming the available context.  Any
other formatting exception propagates to the caller. -/
def _format_user_prompt (st : MgrState) (subject : SubjectMatter) (context : Ctx) :
    Except PyError String :=
  match get_subject_config st subject with
  | none =>
      Except.ok ("Generate a response for " ++ subject.value ++
        " with context: " ++ reprCtx context)
  | some config =>
      if config.context_template = "" then
        Except.ok ("Generate a response for " ++ subject.value ++
          " with context: " ++ reprCtx context)
      else
        match pyFormat config.context_template context with
        | Except.ok s => Except.ok s
        | Except.error (PyError.keyError _) =>
            Except.ok ("Generate a response for " ++ subject.value ++
              " with available context: " ++ reprCtx context)
        | Except.error e => Except.error e

/-- The text a live model call produced, with its token usage — the
external, unmodellable part of `OpenAIProvider.generate_response`. -/
structure ProviderReply where
  text : String
  tokens_used : Option Int := none
deriving DecidableEq, Repr

/-- Whether `needle` starts `hay`. -/
def startsWithChars : List Char → List Char → Bool
  | [], _ => true
  | _ :: _, [] => false
  | a :: as, b :: bs => a == b && startsWithChars as bs

/-- Whether `needle` occurs contiguously inside `hay`. -/
def hasSubChars (needle : List Char) : List Char → Bool
  | [] => startsWithChars needle []
  | b :: bs => startsWithChars needle (b :: bs) || hasSubChars needle bs

/-- `text.lower()`: character-wise lowercasing. -/
def lowerStr (s : String) : String := String.mk (s.toList.map Char.toLower)

/-- `text.strip()`: drop leading and trailing whitespace. -/
def pyStrip (s : String) : String :=
  String.mk (((s.toList.dropWhile Char.isWhitespace).reverse.dropWhile
    Char.isWhitespace).reverse)

/-- Case-insensitive keyword containment used by
`OpenAIProvider._parse_response_metadata` (`word in text.lower()`). -/
def containsWord (text : String) (w : String) : Bool :=
  hasSubChars w.toList (lowerStr text).toList

/-- `OpenAIProvider._parse_response_metadata`: keyword-based mood and
animation inference with a cheerful default. -/
def _parse_response_metadata (response_text : String) : String × String :=
  if containsWord response_text "amazing" || containsWord response_text "incredible" ||
      containsWord response_text "fantastic" then
    ("excited", "celebration_bounce")
  else if containsWord response_text "gentle" || containsWord response_text "soft" ||
      containsWord response_text "calm" then
    ("gentle", "gentle_sway")
  else if containsWord response_text "celebrate" || containsWord response_text "party" ||
      containsWord response_text "woohoo" then
    ("celebratory", "confetti_explosion")
  else ("cheerful", "bounce")

/-- The `AIResponse` built by `OpenAIProvider.generate_response` from a
successful reply. -/
def provider_success (cfg : AIModelConfig) (reply : ProviderReply) : AIResponse :=
  let response_text := pyStrip reply.text
  let parsed := _parse_response_metadata response_text
  { text := response_text,
    animation_type := parsed.2,
    mood := parsed.1,
    source := "ai",
    metadata :=
      [("model", Value.str cfg.model_name),
       ("provider", Value.str "openai"),
       ("tokens_used",
         match reply.tokens_used with
         | some n => Value.int n
         | none => Value.null)] }

/-- One call to `OpenAIProvider.generate_response`: the oracle either
supplies a reply or signals failure (timeout, transport or API error —
all re-raised by the provider as `AIServiceError`). -/
def provider_generate_response (cfg : AIModelConfig)
    (reply : Option ProviderReply) : Except Unit AIResponse :=
  match reply with
  | none => Except.error ()
  | some r => Except.ok (provider_success cfg r)

/-- The external nondeterminism of one `generate_response` invocation:
the outcome of the n-th primary-model call, the outcome of the single
secondary-model call, and the random draw for weighted selection. -/
structure Oracle where
  primary : Nat → Option ProviderReply
  secondary : Option ProviderReply
  rand : Nat

/-- Observable events of one `generate_response` invocation: how many
connectivity pre-checks ran, whether the primary-generation routine was
entered, how many primary calls were made, the back-off sleeps between
them (in seconds), and how many secondary calls were made. -/
structure Trace where
  connectivityChecks : Nat := 0
  primaryAttempted : Bool := false
  primaryCalls : Nat := 0
  sleeps : List ℚ := []
  secondaryCalls : Nat := 0
deriving DecidableEq, Repr

/-- The retry loop of `AIService._generate_ai_response`: up to
`remaining` tries starting at index `attempt`; after a failed attempt
that is not the last, sleep `retry_delay * (attempt + 1)`.  Returns the
outcome, the number of calls made and the sleeps performed. -/
def retryPrimary (cfg : AIModelConfig) (oracle : Oracle) :
    Nat → Nat → Except Unit AIResponse × Nat × List ℚ
  | _, 0 => (Except.error (), 0, [])
  | attempt, remaining + 1 =>
      match provider_generate_response cfg (oracle.primary attempt) with
      | Except.ok resp => (Except.ok resp, 1, [])
      | Except.error _ =>
          if remaining = 0 then (Except.error (), 1, [])
          else
            let rec_ := retryPrimary cfg oracle (attempt + 1) remaining
            (rec_.1, rec_.2.1 + 1,
              cfg.retry_delay * ((attempt : ℚ) + 1) :: rec_.2.2)

/-- The outcome of `AIService._generate_ai_response` as seen by its
caller: success, an `AIServiceError` (caught specifically), or any other
exception. -/
inductive GenErr where
  | aiService
  | py (e : PyError)
deriving DecidableEq, Repr

/-- `AIService`: the configuration-manager state plus the set of
initialized provider objects (`self.providers`). -/
structure ServiceState where
  mgr : MgrState
  providers : AIProvider → Bool

/-- `AIService._generate_ai_response`: fail with `AIServiceError` when
the primary provider object is missing, format the user prompt (a
non-KeyError formatting exception propagates as a plain exception), then
run the retry loop. -/
def _generate_ai_response (svc : ServiceState) (config : SubjectMatterConfig)
    (context : Ctx) (oracle : Oracle) : Except GenErr AIResponse × Trace :=
  if !(svc.providers config.primary_model.provider) then
    (Except.error GenErr.aiService, { primaryAttempted := true })
  else
    match _format_user_prompt svc.mgr config.subject context with
    | Except.error e => (Except.error (GenErr.py e), { primaryAttempted := true })
    | Except.ok _user_prompt =>
        let r := retryPrimary config.primary_model oracle 0 config.primary_model.retry_attempts
        (match r.1 with
         | Except.ok resp => Except.ok resp
         | Except.error _ => Except.error GenErr.aiService,
         { primaryAttempted := true, primaryCalls := r.2.1, sleeps := r.2.2 })

/-- `AIService._get_fallback_response`: static fallback selection keyed
by the context's `context_type` (default `general`) and `mood` (default
`cheerful`); the only possible exception is the `ValueError` of
zero-total-weight selection. -/
def _get_fallback_response (st : MgrState) (subject : SubjectMatter)
    (context : Ctx) (rand : Nat) : Except PyError AIResponse :=
  let context_type := ctxGetD context "context_type" (Value.str "general")
  let mood := ctxGetD context "mood" (Value.str "cheerful")
  match get_fallback_response st subject context_type mood rand with
  | Except.ok fallback =>
      Except.ok
        { text := fallback.response_text,
          animation_type := fallback.animation_type,
          mood := fallback.mood,
          source := "fallback",
          metadata :=
            [("fallback_reason", Value.str "ai_unavailable"),
             ("context_type", context_type)] }
  | Except.error e => Except.error e

/-- `AIService._try_fallback_model`: when a secondary model is configured
with a non-static provider and its provider object exists, make exactly
one call (no retries); a success is returned with `source` rewritten to
`fallback_ai`; any exception inside the attempt is caught.  All other
paths fall through to the static fallback (whose own exception
propagates).  The second component counts secondary-model calls. -/
def _try_fallback_model (svc : ServiceState) (subject : SubjectMatter)
    (context : Ctx) (config : SubjectMatterConfig) (oracle : Oracle) :
    Except PyError AIResponse × Nat :=
  let staticPart := _get_fallback_response svc.mgr subject context oracle.rand
  match config.fallback_model with
  | some fm =>
      if fm.provider = AIProvider.fallback then (staticPart, 0)
      else if svc.providers fm.provider then
        match _format_user_prompt svc.mgr subject context with
        | Except.error _ => (staticPart, 0)
        | Except.ok _user_prompt =>
            match provider_generate_response fm oracle.secondary with
            | Except.ok resp => (Except.ok { resp with source := "fallback_ai" }, 1)
            | Except.error _ => (staticPart, 1)
      else (staticPart, 0)
  | none => (staticPart, 0)

/-- The part of `AIService.generate_response` guarded by its
`try`/`except` clauses: optional connectivity pre-check, primary
generation with retries, cache write on success; `AIServiceError` is
handled by `_try_fallback_model`, any other exception by
`_get_fallback_response` — and an exception raised inside either handler
escapes. -/
def generate_try_block (svc : ServiceState) (env : Env) (subject : SubjectMatter)
    (context : Ctx) (force_ai : Bool) (oracle : Oracle) (now : Nat)
    (config : SubjectMatterConfig) (mgr1 : MgrState) :
    Except PyError AIResponse × MgrState × Trace :=
  let svc1 : ServiceState := { mgr := mgr1, providers := svc.providers }
  if !force_ai then
    let conn := check_connectivity mgr1 env now config.primary_model.provider
    let mgr2 := conn.2
    let svc2 : ServiceState := { mgr := mgr2, providers := svc.providers }
    if !conn.1 then
      let fb := _try_fallback_model svc2 subject context config oracle
      match fb.1 with
      | Except.ok r =>
          (Except.ok r, mgr2, { connectivityChecks := 1, secondaryCalls := fb.2 })
      | Except.error _ =>
          (_get_fallback_response mgr2 subject context oracle.rand, mgr2,
            { connectivityChecks := 1, secondaryCalls := fb.2 })
    else
      let gen := _generate_ai_response svc2 config context oracle
      let tr2 := { gen.2 with connectivityChecks := 1 }
      match gen.1 with
      | Except.ok ai_response =>
          let mgr3 :=
            if config.cache_responses then
              cache_response mgr2 now (_generate_cache_key subject context)
                (ai_response.to_dict now) config.cache_duration_hours
            else mgr2
          (Except.ok ai_response, mgr3, tr2)
      | Except.error GenErr.aiService =>
          let fb := _try_fallback_model svc2 subject context config oracle
          (fb.1, mgr2, { tr2 with secondaryCalls := fb.2 })
      | Except.error (GenErr.py _) =>
          (_get_fallback_response mgr2 subject context oracle.rand, mgr2, tr2)
  else
    let gen := _generate_ai_response svc1 config context oracle
    match gen.1 with
    | Except.ok ai_response =>
        let mgr3 :=
          if config.cache_responses then
            cache_response mgr1 now (_generate_cache_key subject context)
              (ai_response.to_dict now) config.cache_duration_hours
          else mgr1
        (Except.ok ai_response, mgr3, gen.2)
    | Except.error GenErr.aiService =>
        let fb := _try_fallback_model svc1 subject context config oracle
        (fb.1, mgr1, { gen.2 with secondaryCalls := fb.2 })
    | Except.error (GenErr.py _) =>
        (_get_fallback_response mgr1 subject context oracle.rand, mgr1, gen.2)

/-- `AIService.generate_response`, the orchestrator entry point.  An
unconfigured subject goes straight to the static fallback.  Otherwise,
unless `force_ai` is set, a cache-eligible subject first consults the
cache; on an unexpired hit the stored dict — shared by reference with
the cache — has its `source` set to `cache` in place and is passed back
through `AIResponse(**cached_response)` (both the cache block and that
reconstruction sit outside the `try`/`except`, so an exception here
escapes).  On a miss, control enters the guarded block. -/
def generate_response (svc : ServiceState) (env : Env) (subject : SubjectMatter)
    (context : Ctx) (force_ai : Bool) (oracle : Oracle) (now : Nat) :
    Except PyError AIResponse × MgrState × Trace :=
  match get_subject_config svc.mgr subject with
  | none => (_get_fallback_response svc.mgr subject context oracle.rand, svc.mgr, {})
  | some config =>
      let cache_key := _generate_cache_key subject context
      let read :=
        if !force_ai && config.cache_responses then
          get_cached_response svc.mgr now cache_key
        else (none, svc.mgr)
      match read.1 with
      | some cached_response =>
          let mutated := { cached_response with source := "cache" }
          let mgr2 :=
            { read.2 with response_cache :=
                read.2.response_cache.map (fun p =>
                  if p.1 = cache_key then (p.1, { p.2 with response := mutated }) else p) }
          (AIResponse.ofRespDict mutated, mgr2, {})
      | none =>
          generate_try_block svc env subject context force_ai oracle now config read.2

/-- Outcome of an administrative route: either an HTTP success status or
an error status with its message. -/
inductive AdminResult where
  | success (status : Nat)
  | failure (status : Nat) (message : String)
deriving DecidableEq, Repr

/-- The optional `primary_model` fields of an administrative update
request; `none` means the key is absent and the current value is kept. -/
structure ModelUpdateData where
  provider : Option String := none
  model_name : Option String := none
  api_key : Option (Option String) := none
  api_base : Option (Option String) := none
  max_tokens : Option Int := none
  temperature : Option ℚ := none
  timeout : Option Int := none
deriving Repr

/-- The body of an administrative subject-configuration update. -/
structure UpdateRequestData where
  primary_model : Option ModelUpdateData := none
  system_prompt : Option String := none
  context_template : Option String := none
  cache_responses : Option Bool := none
  cache_duration_hours : Option Nat := none
deriving Repr

/-- Rebuild the primary `AIModelConfig` from an update request, as
`admin.py` does: each absent field keeps the current value, an unknown
provider string is a `ValueError`, and the reconstructed dataclass takes
the *defaults* for `retry_attempts` and `retry_delay` (they are not
forwarded).  No range validation is performed on any field. -/
def applyModelUpdate (current : AIModelConfig) (d : ModelUpdateData) :
    Except String AIModelConfig :=
  match AIProvider.ofString? (d.provider.getD current.provider.value) with
  | none => Except.error "Invalid provider"
  | some provider =>
      Except.ok
        { provider := provider,
          model_name := d.model_name.getD current.model_name,
          api_key := d.api_key.getD current.api_key,
          api_base := d.api_base.getD current.api_base,
          max_tokens := d.max_tokens.getD current.max_tokens,
          temperature := d.temperature.getD current.temperature,
          timeout := d.timeout.getD current.timeout,
          retry_attempts := 3,
          retry_delay := 1 }

/-- `admin.py` route `update_subject_configuration`: 422 for an unknown
subject or provider, 404 for an unconfigured subject, otherwise the
update is applied field-by-field and saved — with no validation of
temperature, token limits or any numeric range. -/
def update_subject_configuration (st : MgrState) (subject : String)
    (data : UpdateRequestData) : AdminResult × MgrState :=
  match SubjectMatter.ofString? subject with
  | none => (AdminResult.failure 422 "Invalid subject matter", st)
  | some subject_enum =>
      match get_subject_config st subject_enum with
      | none => (AdminResult.failure 404 "Subject configuration not found", st)
      | some current_config =>
          let primaryStep : Except AdminResult SubjectMatterConfig :=
            match data.primary_model with
            | none => Except.ok current_config
            | some model_data =>
                match applyModelUpdate current_config.primary_model model_data with
                | Except.error _ => Except.error (AdminResult.failure 422 "Invalid provider")
                | Except.ok pm => Except.ok { current_config with primary_model := pm }
          match primaryStep with
          | Except.error r => (r, st)
          | Except.ok cfg1 =>
              let cfg2 :=
                { cfg1 with
                  system_prompt := data.system_prompt.getD cfg1.system_prompt,
                  context_template := data.context_template.getD cfg1.context_template,
                  cache_responses := data.cache_responses.getD cfg1.cache_responses,
                  cache_duration_hours := data.cache_duration_hours.getD cfg1.cache_duration_hours }
              (AdminResult.success 200, update_subject_config st subject_enum cfg2)

/-! Concrete fixture: a small reachable service state used by the closed
theorems below — one configured subject (`task_creation`) with an OpenAI
primary, a static-provider secondary, a prompt template and one authored
static response. -/

/-- Fixture primary model: the default OpenAI endpoint shape. -/
def fixPrimary : AIModelConfig :=
  { provider := AIProvider.openai, model_name := "gpt-3.5-turbo",
    api_key := some "k", api_base := some "b", temperature := 8/10 }

/-- Fixture secondary model: the synthetic static provider. -/
def fixStatic : AIModelConfig :=
  { provider := AIProvider.fallback, model_name := "static_responses", timeout := 1 }

/-- Fixture configuration for `task_creation`, with the repository's
default prompt template for that subject. -/
def fixCfg : SubjectMatterConfig :=
  { subject := SubjectMatter.task_creation,
    primary_model := fixPrimary,
    fallback_model := some fixStatic,
    system_prompt := "You are a cheerful Birthday Cake AI assistant helping users create tasks.",
    context_template := "User is creating a task: \x7btask_title\x7d with priority \x7bpriority\x7d and difficulty \x7bdifficulty\x7d" }

/-- Fixture authored static response for `task_creation`. -/
def fixFallback : FallbackResponse :=
  { subject := SubjectMatter.task_creation, context_type := "general",
    mood := "cheerful",
    response_text := "🎂 Wonderful! A new task to celebrate! Let\x27s make this one extra sweet! ✨",
    animation_type := "bounce", weight := 3 }

/-- Fixture manager state. -/
def fixMgr : MgrState :=
  { subject_configs := [(SubjectMatter.task_creation, fixCfg)],
    fallback_responses := [(SubjectMatter.task_creation, [fixFallback])] }

/-- Fixture service: only the OpenAI provider object is initialized. -/
def fixSvc : ServiceState :=
  { mgr := fixMgr, providers := fun p => p = AIProvider.openai }

/-- Fixture environment with both OpenAI variables set. -/
def fixEnv : Env := { openai_api_key := some "k", openai_api_base := some "b" }

/-- Fixture oracle whose primary model always succeeds. -/
def fixOkOracle : Oracle :=
  { primary := fun _ => some { text := "Nice job" }, secondary := none, rand := 0 }

/-- Fixture context for the cache scenario. -/
def fixCtx : Ctx := [("task_title", Value.str "T"), ("priority", Value.int 3), ("difficulty", Value.int 2)]

/-- First `generate` call of the cache scenario: primary succeeds, the
response is cached. -/
def fixCall1 : Except PyError AIResponse × MgrState × Trace :=
  generate_response fixSvc fixEnv SubjectMatter.task_creation fixCtx false fixOkOracle 1000

/-- Second, identical `generate` call one second later, on the state the
first call produced. -/
def fixCall2 : Except PyError AIResponse × MgrState × Trace :=
  generate_response { mgr := fixCall1.2.1, providers := fixSvc.providers }
    fixEnv SubjectMatter.task_creation fixCtx false fixOkOracle 1001

/-- The live response the first fixture call produces. -/
def fixLive : AIResponse :=
  { text := "Nice job", animation_type := "bounce", mood := "cheerful", source := "ai",
    metadata :=
      [("model", Value.str "gpt-3.5-turbo"),
       ("provider", Value.str "openai"),
       ("tokens_used", Value.null)] }

/-- Fixture secondary model on a live (non-static) provider. -/
def fixSecondary : AIModelConfig :=
  { provider := AIProvider.anthropic, model_name := "claude-2" }

/-- Fixture configuration whose secondary is a live model. -/
def fixCfg6 : SubjectMatterConfig := { fixCfg with fallback_model := some fixSecondary }

/-- Fixture manager state for the retry-then-secondary scenario. -/
def fixMgr6 : MgrState :=
  { fixMgr with subject_configs := [(SubjectMatter.task_creation, fixCfg6)] }

/-- Fixture service with both provider objects initialized. -/
def fixSvc6 : ServiceState :=
  { mgr := fixMgr6,
    providers := fun p => p = AIProvider.openai || p = AIProvider.anthropic }

/-- Fixture oracle: the primary model fails deterministically on every
attempt, the secondary succeeds. -/
def fixFailOracle : Oracle :=
  { primary := fun _ => none, secondary := some { text := "sec text" }, rand := 0 }

end TeamOS

namespace TeamOS

/-! Helper lemmas (shared across the claim theorems). -/

theorem lookupA_removeA_self {α β : Type} [DecidableEq α] (l : List (α × β)) (a : α) :
    lookupA (removeA l a) a = none := by
  induction l with
  | nil => rfl
  | cons p rest ih =>
      obtain ⟨k, v⟩ := p
      by_cases h : k = a
      · simpa [removeA, h] using ih
      · simpa [removeA, lookupA, h] using ih

theorem lookupA_map_update {β : Type} (l : List (String × β)) (a : String) (g : β → β) :
    lookupA (l.map (fun p => if p.1 = a then (p.1, g p.2) else p)) a =
      (lookupA l a).map g := by
  induction l with
  | nil => rfl
  | cons p rest ih =>
      obtain ⟨k, v⟩ := p
      simp only [List.map_cons]
      by_cases h : k = a
      · rw [show ((if (k, v).1 = a then ((k, v).1, g (k, v).2) else (k, v))) = (k, g v) by
              simp [h]]
        subst h
        simp [lookupA]
      · rw [show ((if (k, v).1 = a then ((k, v).1, g (k, v).2) else (k, v))) = (k, v) by
              simp [h]]
        simp [lookupA, h, ih]

/-- C9: a cache entry whose expiry instant has passed is never returned
by a cache read (`get_cached_response` yields `none`); the expired entry
is purged during that read, so a subsequent lookup for the same key —
at any instant — behaves as a cold (miss) lookup. -/
theorem c9_expired_entry_purged_on_read (st : MgrState) (now : Nat)
    (cache_key : String) (e : CacheEntry)
    (hfound : lookupA st.response_cache cache_key = some e)
    (hexpired : e.expiry ≤ now) :
    (get_cached_response st now cache_key).1 = none ∧
    lookupA ((get_cached_response st now cache_key).2).response_cache cache_key = none ∧
    ∀ later : Nat,
      (get_cached_response ((get_cached_response st now cache_key).2) later cache_key).1 = none := by
  have hlt : ¬ now < e.expiry := Nat.not_lt.mpr hexpired
  refine ⟨?_, ?_, fun later => ?_⟩ <;>
    simp [get_cached_response, hfound, hlt, lookupA_removeA_self]

/-- Witness for C9 at a concrete expired entry (expiry 5, read at 10). -/
theorem c9_expired_entry_purged_on_read_witness :
    (get_cached_response
        { response_cache := [("k1", { response := fixLive.to_dict 0, expiry := 5 })] }
        10 "k1").1 = none ∧
    lookupA ((get_cached_response
        { response_cache := [("k1", { response := fixLive.to_dict 0, expiry := 5 })] }
        10 "k1").2).response_cache "k1" = none ∧
    (get_cached_response ((get_cached_response
        { response_cache := [("k1", { response := fixLive.to_dict 0, expiry := 5 })] }
        10 "k1").2) 11 "k1").1 = none := by
  have h := c9_expired_entry_purged_on_read
    { response_cache := [("k1", { response := fixLive.to_dict 0, expiry := 5 })] }
    10 "k1" { response := fixLive.to_dict 0, expiry := 5 } (by rfl) (by decide)
  exact ⟨h.1, h.2.1, h.2.2 11⟩

/-- C10: a cache hit is not a pure read.  When `generate_response` finds
an unexpired entry for the key, the dict handed back by the cache read
is the stored object itself, and setting its `source` to `cache` mutates
the persisted entry: afterwards the value held in the cache carries
provenance `cache` instead of the provenance recorded at write time.
(The value handed to `AIResponse(**...)` is that same mutated dict.) -/
theorem c10_cache_hit_mutates_stored_entry
    (svc : ServiceState) (env : Env) (subject : SubjectMatter) (context : Ctx)
    (oracle : Oracle) (now : Nat) (config : SubjectMatterConfig) (entry : CacheEntry)
    (hcfg : get_subject_config svc.mgr subject = some config)
    (hcache : config.cache_responses = true)
    (hentry : lookupA svc.mgr.response_cache (_generate_cache_key subject context) = some entry)
    (hfresh : now < entry.expiry) :
    (generate_response svc env subject context false oracle now).1 =
      AIResponse.ofRespDict { entry.response with source := "cache" } ∧
    lookupA ((generate_response svc env subject context false oracle now).2.1).response_cache
        (_generate_cache_key subject context) =
      some { entry with response := { entry.response with source := "cache" } } := by
  have h2 := lookupA_map_update svc.mgr.response_cache (_generate_cache_key subject context)
    (fun c => { c with response := { entry.response with source := "cache" } })
  constructor <;>
    simp [generate_response, hcfg, hcache, get_cached_response, hentry, hfresh, h2]

/-- Witness for C10: after a concrete cache write with provenance `ai`,
a hit rewrites the stored entry's provenance to `cache`. -/
theorem c10_cache_hit_mutates_stored_entry_witness :
    (generate_response
        { mgr := cache_response fixMgr 1000 (_generate_cache_key SubjectMatter.task_creation fixCtx)
                   (fixLive.to_dict 1000) 24,
          providers := fun p => p = AIProvider.openai }
        fixEnv SubjectMatter.task_creation fixCtx false fixOkOracle 1001).1 =
      AIResponse.ofRespDict { fixLive.to_dict 1000 with source := "cache" } ∧
    lookupA ((generate_response
        { mgr := cache_response fixMgr 1000 (_generate_cache_key SubjectMatter.task_creation fixCtx)
                   (fixLive.to_dict 1000) 24,
          providers := fun p => p = AIProvider.openai }
        fixEnv SubjectMatter.task_creation fixCtx false fixOkOracle 1001).2.1).response_cache
        (_generate_cache_key SubjectMatter.task_creation fixCtx) =
      some { response := { fixLive.to_dict 1000 with source := "cache" }, expiry := 1000 + 24 * 3600 } := by
  exact c10_cache_hit_mutates_stored_entry _ fixEnv SubjectMatter.task_creation fixCtx
    fixOkOracle 1001 fixCfg { response := fixLive.to_dict 1000, expiry := 1000 + 24 * 3600 }
    (by rfl) (by rfl) (by decide) (by decide)

set_option maxRecDepth 40000 in
/-- C1 (code-bug evidence): `generate` does not always terminate in a
successful response.  From a clean configured state, a first call
succeeds live and caches its response, and the second identical call —
a cache hit — raises a `TypeError`: the cached dict produced by
`to_dict` carries a `timestamp` key that `AIResponse.__init__` does not
accept, and both the cache read and the `AIResponse(**cached_response)`
reconstruction sit outside the routine's `try`/`except`. -/
theorem c1_generate_raises_on_cache_hit :
    fixCall1.1 = Except.ok fixLive ∧
    fixCall2.1 = Except.error
      (PyError.typeError "__init__ got an unexpected keyword argument timestamp") :=
  ⟨by rfl, by rfl⟩

set_option maxRecDepth 40000 in
/-- C2 (code-bug evidence): after a successful primary call on
cache-eligible `task_creation` stored the response under the key, the
second identical call within the TTL raises a `TypeError` instead of
returning provenance `cache` with the first call's text. -/
theorem c2_second_identical_call_raises :
    fixCall1.1 = Except.ok fixLive ∧
    fixLive.source = "ai" ∧
    lookupA fixCall1.2.1.response_cache
        (_generate_cache_key SubjectMatter.task_creation fixCtx) =
      some { response := fixLive.to_dict 1000, expiry := 1000 + 24 * 3600 } ∧
    fixCall2.1 = Except.error
      (PyError.typeError "__init__ got an unexpected keyword argument timestamp") :=
  ⟨by rfl, by rfl, by decide, by rfl⟩

/-- C3 (counterexample): for the unconfigured subject `goal_setting`,
`generate` does return a static fallback, but its metadata reason is
`ai_unavailable` — the metadata carries no `unconfigured-subject`
value (the second conjunct separates the two reason strings). -/
theorem c3_counterexample_reason_is_ai_unavailable :
    (generate_response fixSvc fixEnv SubjectMatter.goal_setting [] false fixOkOracle 1000).1 =
      Except.ok
        { text := "🎂 Sweet! Let\x27s keep the productivity celebration going! ✨",
          animation_type := "bounce", mood := "cheerful", source := "fallback",
          metadata := [("fallback_reason", Value.str "ai_unavailable"),
                       ("context_type", Value.str "general")] } ∧
    (("ai_unavailable" : String) == "unconfigured-subject") = false :=
  ⟨by rfl, by rfl⟩

/-- C3 (amended): for every subject with no `SubjectConfig`, `generate`
goes directly to the static fallback — selected with the context's
`context_type` (default `general`) and `mood` (default `cheerful`) —
and returns provenance `fallback` with metadata `fallback_reason =
ai_unavailable` (the code uses this single reason for all static
fallbacks; there is no distinct `unconfigured-subject` reason). -/
theorem c3_unconfigured_subject_static_fallback
    (svc : ServiceState) (env : Env) (subject : SubjectMatter) (context : Ctx)
    (force_ai : Bool) (oracle : Oracle) (now : Nat)
    (h : get_subject_config svc.mgr subject = none) :
    generate_response svc env subject context force_ai oracle now =
      (_get_fallback_response svc.mgr subject context oracle.rand, svc.mgr, {}) ∧
    (∀ fb : FallbackResponse,
      get_fallback_response svc.mgr subject
          (ctxGetD context "context_type" (Value.str "general"))
          (ctxGetD context "mood" (Value.str "cheerful")) oracle.rand = Except.ok fb →
      _get_fallback_response svc.mgr subject context oracle.rand =
        Except.ok
          { text := fb.response_text, animation_type := fb.animation_type,
            mood := fb.mood, source := "fallback",
            metadata :=
              [("fallback_reason", Value.str "ai_unavailable"),
               ("context_type", ctxGetD context "context_type" (Value.str "general"))] }) := by
  constructor
  · simp [generate_response, h]
  · intro fb hfb
    simp [_get_fallback_response, hfb]

/-- Witness for the amended C3 at the concrete unconfigured subject
`goal_setting` with an empty context. -/
theorem c3_unconfigured_subject_static_fallback_witness :
    generate_response fixSvc fixEnv SubjectMatter.goal_setting [] false fixOkOracle 1000 =
      (_get_fallback_response fixSvc.mgr SubjectMatter.goal_setting [] fixOkOracle.rand,
        fixSvc.mgr, {}) ∧
    _get_fallback_response fixSvc.mgr SubjectMatter.goal_setting [] fixOkOracle.rand =
      Except.ok
        { text := "🎂 Sweet! Let\x27s keep the productivity celebration going! ✨",
          animation_type := "bounce", mood := "cheerful", source := "fallback",
          metadata := [("fallback_reason", Value.str "ai_unavailable"),
                       ("context_type", Value.str "general")] } := by
  have h := c3_unconfigured_subject_static_fallback fixSvc fixEnv SubjectMatter.goal_setting
    [] false fixOkOracle 1000 (by rfl)
  exact ⟨h.1, h.2 (genericFallback SubjectMatter.goal_setting (Value.str "general")) (by rfl)⟩

/-- C4 (code-bug evidence): an administrative update setting the
randomness/temperature parameter to 5 — above the documented upper
bound 2 — is accepted with status 200 and applied: the subsequent
config lookup shows temperature 5.  No validation error is produced
(the repository's own validation test expects a 422 here). -/
theorem c4_out_of_range_temperature_update_applied :
    (update_subject_configuration fixMgr "task_creation"
        { primary_model := some { temperature := some 5 } }).1 =
      AdminResult.success 200 ∧
    (get_subject_config (update_subject_configuration fixMgr "task_creation"
        { primary_model := some { temperature := some 5 } }).2
        SubjectMatter.task_creation).map (fun c => c.primary_model.temperature) =
      some 5 ∧
    (2 : ℚ) < 5 :=
  ⟨by rfl, by rfl, by norm_num⟩

/-- C5 (counterexample): for the `task_creation` template and an empty
context, the missing `task_title` placeholder is not left in the output
as a literal marker — the whole template is replaced by a generic
prompt, which contains no `\x7btask_title\x7d` substring. -/
theorem c5_counterexample_placeholder_not_preserved :
    _format_user_prompt fixMgr SubjectMatter.task_creation [] =
      Except.ok "Generate a response for task_creation with available context: \x7b\x7d" ∧
    hasSubChars "\x7btask_title\x7d".toList
      "Generate a response for task_creation with available context: \x7b\x7d".toList
      = false :=
  ⟨by rfl, by decide⟩

/-- Helper: the retry loop makes at least one call when at least one
attempt is allowed. -/
theorem retryPrimary_calls_pos (cfg : AIModelConfig) (oracle : Oracle) (a n : Nat)
    (hn : 1 ≤ n) : 1 ≤ (retryPrimary cfg oracle a n).2.1 := by
  match n, hn with
  | n + 1, _ =>
      simp only [retryPrimary]
      cases provider_generate_response cfg (oracle.primary a) with
      | ok r => simp
      | error e =>
          by_cases h : n = 0 <;> simp [h]

/-- C5 (amended): prompt formatting substitutes named context values
into the configured template; when a referenced key is missing
(`KeyError`), the template is abandoned for a generic prompt naming the
subject and the raw context — and the generation call still proceeds
(at least one primary call is made), so a missing key is not a hard
failure. -/
theorem c5_missing_key_generic_prompt_and_proceed
    (st : MgrState) (subject : SubjectMatter) (ctx : Ctx)
    (config : SubjectMatterConfig) (s k : String)
    (hc : get_subject_config st subject = some config)
    (ht : ¬ config.context_template = "") :
    (pyFormat config.context_template ctx = Except.ok s →
      _format_user_prompt st subject ctx = Except.ok s) ∧
    (pyFormat config.context_template ctx = Except.error (PyError.keyError k) →
      _format_user_prompt st subject ctx =
        Except.ok ("Generate a response for " ++ subject.value ++
          " with available context: " ++ reprCtx ctx)) ∧
    (∀ (svc : ServiceState) (oracle : Oracle) (s' : String),
      svc.mgr = st → config.subject = subject →
      svc.providers config.primary_model.provider = true →
      1 ≤ config.primary_model.retry_attempts →
      _format_user_prompt st subject ctx = Except.ok s' →
      1 ≤ (_generate_ai_response svc config ctx oracle).2.primaryCalls) := by
  refine ⟨fun h => ?_, fun h => ?_, ?_⟩
  · simp [_format_user_prompt, hc, ht, h]
  · simp [_format_user_prompt, hc, ht, h]
  · intro svc oracle s' hmgr hsub hprov hretry hfmt
    subst hmgr
    simp only [_generate_ai_response, hprov, Bool.not_true, Bool.false_eq_true,
      if_false, hsub, hfmt]
    simpa using retryPrimary_calls_pos config.primary_model oracle 0
      config.primary_model.retry_attempts hretry

/-- Witness for the amended C5 at the `task_creation` template with an
empty context: the prompt falls back to the generic form and the primary
model is still called. -/
theorem c5_missing_key_generic_prompt_and_proceed_witness :
    _format_user_prompt fixMgr SubjectMatter.task_creation [("priority", Value.int 3)] =
      Except.ok ("Generate a response for task_creation with available context: " ++
        reprCtx [("priority", Value.int 3)]) ∧
    1 ≤ (_generate_ai_response fixSvc fixCfg [("priority", Value.int 3)] fixOkOracle).2.primaryCalls := by
  have h := c5_missing_key_generic_prompt_and_proceed fixMgr SubjectMatter.task_creation
    [("priority", Value.int 3)] fixCfg "" "task_title" (by rfl) (by decide)
  have h2 := h.2.1 (by rfl)
  exact ⟨h2, h.2.2 fixSvc fixOkOracle _ rfl rfl (by rfl) (by decide) h2⟩

end TeamOS

namespace TeamOS

/-- Helper: a successful static fallback response always carries
provenance `fallback`. -/
theorem _get_fallback_response_ok_source (st : MgrState) (subject : SubjectMatter)
    (context : Ctx) (rand : Nat) (r : AIResponse)
    (h : _get_fallback_response st subject context rand = Except.ok r) :
    r.source = "fallback" := by
  simp only [_get_fallback_response] at h
  cases hg : get_fallback_response st subject
      (ctxGetD context "context_type" (Value.str "general"))
      (ctxGetD context "mood" (Value.str "cheerful")) rand with
  | ok fb => rw [hg] at h; cases h; rfl
  | error e => rw [hg] at h; cases h

/-- Helper: a successful provider call always carries provenance `ai`. -/
theorem provider_generate_response_ok_source (cfg : AIModelConfig)
    (reply : Option ProviderReply) (r : AIResponse)
    (h : provider_generate_response cfg reply = Except.ok r) : r.source = "ai" := by
  cases reply with
  | none => simp [provider_generate_response] at h
  | some rep =>
      simp [provider_generate_response] at h
      rw [← h]
      rfl

/-- Helper: a successful retry-loop outcome carries provenance `ai`. -/
theorem retryPrimary_ok_source (cfg : AIModelConfig) (oracle : Oracle) :
    ∀ (n a : Nat) (r : AIResponse),
      (retryPrimary cfg oracle a n).1 = Except.ok r → r.source = "ai" := by
  intro n
  induction n with
  | zero => intro a r h; simp [retryPrimary] at h
  | succ n ih =>
      intro a r h
      simp only [retryPrimary] at h
      cases hp : provider_generate_response cfg (oracle.primary a) with
      | ok resp =>
          rw [hp] at h
          cases h
          exact provider_generate_response_ok_source cfg (oracle.primary a) r hp
      | error e =>
          rw [hp] at h
          by_cases hz : n = 0
          · subst hz; simp at h
          · simp only [if_neg hz] at h
            exact ih (a + 1) r h

/-- Helper: a successful primary generation carries provenance `ai`. -/
theorem _generate_ai_response_ok_source (svc : ServiceState)
    (config : SubjectMatterConfig) (context : Ctx) (oracle : Oracle) (r : AIResponse)
    (h : (_generate_ai_response svc config context oracle).1 = Except.ok r) :
    r.source = "ai" := by
  unfold _generate_ai_response at h
  cases hb : svc.providers config.primary_model.provider with
  | false => rw [hb] at h; simp at h
  | true =>
      rw [hb] at h
      simp only [Bool.not_true] at h
      cases hf : _format_user_prompt svc.mgr config.subject context with
      | error e => rw [hf] at h; simp at h
      | ok up =>
          rw [hf] at h
          cases hr : (retryPrimary config.primary_model oracle 0
              config.primary_model.retry_attempts).1 with
          | ok resp =>
              rw [hr] at h
              cases h
              exact retryPrimary_ok_source config.primary_model oracle
                config.primary_model.retry_attempts 0 r hr
          | error e => rw [hr] at h; simp at h

/-- Helper: `_generate_ai_response` never consults connectivity and
always marks the primary attempt in its trace. -/
theorem _generate_ai_response_trace (svc : ServiceState)
    (config : SubjectMatterConfig) (context : Ctx) (oracle : Oracle) :
    (_generate_ai_response svc config context oracle).2.connectivityChecks = 0 ∧
    (_generate_ai_response svc config context oracle).2.primaryAttempted = true := by
  unfold _generate_ai_response
  split
  · simp
  · split <;> simp

/-- Helper: a successful secondary-or-static fallback carries provenance
`fallback_ai` or `fallback`, never `cache`. -/
theorem _try_fallback_model_ok_source (svc : ServiceState) (subject : SubjectMatter)
    (context : Ctx) (config : SubjectMatterConfig) (oracle : Oracle) (r : AIResponse)
    (h : (_try_fallback_model svc subject context config oracle).1 = Except.ok r) :
    r.source = "fallback_ai" ∨ r.source = "fallback" := by
  cases hfm : config.fallback_model with
  | none =>
      simp only [_try_fallback_model, hfm] at h
      exact Or.inr (_get_fallback_response_ok_source _ _ _ _ _ h)
  | some fm =>
      simp only [_try_fallback_model, hfm] at h
      by_cases hp : fm.provider = AIProvider.fallback
      · rw [if_pos hp] at h
        exact Or.inr (_get_fallback_response_ok_source _ _ _ _ _ h)
      · rw [if_neg hp] at h
        cases hb : svc.providers fm.provider with
        | false =>
            rw [hb] at h
            simp only [Bool.false_eq_true, if_false] at h
            exact Or.inr (_get_fallback_response_ok_source _ _ _ _ _ h)
        | true =>
            rw [hb] at h
            simp only [if_true] at h
            cases hf : _format_user_prompt svc.mgr subject context with
            | error e =>
                rw [hf] at h
                exact Or.inr (_get_fallback_response_ok_source _ _ _ _ _ h)
            | ok up =>
                rw [hf] at h
                cases hs : provider_generate_response fm oracle.secondary with
                | ok resp =>
                    rw [hs] at h
                    cases h
                    exact Or.inl rfl
                | error e =>
                    rw [hs] at h
                    exact Or.inr (_get_fallback_response_ok_source _ _ _ _ _ h)

/-- C7: calling `generate` with `forceRefresh = true` never returns
provenance `cache` (whatever the cache holds), performs no connectivity
pre-check, and — whenever the subject is configured — still enters the
primary-model generation routine. -/
theorem c7_force_refresh_bypasses_cache_not_ai
    (svc : ServiceState) (env : Env) (subject : SubjectMatter) (context : Ctx)
    (oracle : Oracle) (now : Nat) :
    (∀ r : AIResponse,
      (generate_response svc env subject context true oracle now).1 = Except.ok r →
      ¬ r.source = "cache") ∧
    (generate_response svc env subject context true oracle now).2.2.connectivityChecks = 0 ∧
    (∀ config : SubjectMatterConfig, get_subject_config svc.mgr subject = some config →
      (generate_response svc env subject context true oracle now).2.2.primaryAttempted = true) := by
  cases hc : get_subject_config svc.mgr subject with
  | none =>
      refine ⟨?_, ?_, ?_⟩
      · intro r h
        simp only [generate_response, hc] at h
        have := _get_fallback_response_ok_source _ _ _ _ _ h
        simp [this]
      · simp [generate_response, hc]
      · intro config h'
        simp at h'
  | some config =>
      have hshape :
          generate_response svc env subject context true oracle now =
            generate_try_block svc env subject context true oracle now config svc.mgr := by
        simp [generate_response, hc]
      rw [hshape]
      have htr := _generate_ai_response_trace
        { mgr := svc.mgr, providers := svc.providers } config context oracle
      refine ⟨?_, ?_, ?_⟩
      · intro r h
        simp only [generate_try_block, Bool.not_true, Bool.false_eq_true, if_false] at h
        split at h
        · next ai hai =>
            cases h
            have := _generate_ai_response_ok_source _ _ _ _ _ hai
            simp [this]
        · next hai =>
            have := _try_fallback_model_ok_source _ _ _ _ _ r h
            rcases this with h1 | h1 <;> simp [h1]
        · next e hai =>
            have := _get_fallback_response_ok_source _ _ _ _ _ h
            simp [this]
      · simp only [generate_try_block, Bool.not_true, Bool.false_eq_true, if_false]
        split
        · next ai hai => simpa using htr.1
        · next hai => simpa using htr.1
        · next e hai => simpa using htr.1
      · intro config' h'
        simp only [generate_try_block, Bool.not_true, Bool.false_eq_true, if_false]
        split
        · next ai hai => simpa using htr.2
        · next hai => simpa using htr.2
        · next e hai => simpa using htr.2

/-- Witness for C7: with a populated cache and `forceRefresh = true`,
the concrete call returns the live response (provenance `ai`, not
`cache`), checks connectivity zero times and enters primary
generation. -/
theorem c7_force_refresh_bypasses_cache_not_ai_witness :
    (generate_response fixSvc fixEnv SubjectMatter.task_creation fixCtx true fixOkOracle 1000).1 =
      Except.ok fixLive ∧
    ¬ fixLive.source = "cache" ∧
    (generate_response fixSvc fixEnv SubjectMatter.task_creation fixCtx true fixOkOracle 1000).2.2.connectivityChecks = 0 ∧
    (generate_response fixSvc fixEnv SubjectMatter.task_creation fixCtx true fixOkOracle 1000).2.2.primaryAttempted = true := by
  have h := c7_force_refresh_bypasses_cache_not_ai fixSvc fixEnv SubjectMatter.task_creation
    fixCtx fixOkOracle 1000
  exact ⟨by rfl, h.1 fixLive (by rfl), h.2.1, h.2.2 fixCfg (by rfl)⟩

end TeamOS

namespace TeamOS

/-- Helper: the filter-or-keep step never empties a list and never
invents elements. -/
theorem mem_filter_or_self (l : List FallbackResponse) (p : FallbackResponse → Bool) :
    ∀ x ∈ (if (l.filter p).isEmpty then l else l.filter p), x ∈ l := by
  intro x hx
  split at hx
  · exact hx
  · exact List.mem_of_mem_filter hx

/-- Helper: the filter-or-keep step preserves nonemptiness. -/
theorem filter_or_self_ne_nil (l base : List FallbackResponse) (hb : base ≠ []) :
    (if l.isEmpty then base else l) ≠ [] := by
  split
  · exact hb
  · next h => exact fun hc => h (by simp [hc])

/-- Helper: every two-stage candidate comes from the subject's stored
responses. -/
theorem fallback_candidates_subset (responses : List FallbackResponse) (ct mood : Value) :
    ∀ x ∈ fallback_candidates responses ct mood, x ∈ responses := by
  intro x hx
  simp only [fallback_candidates] at hx
  have h1 := mem_filter_or_self responses (fun r => valEqStr r.context_type ct)
  by_cases hm : mood.truthy = true
  · rw [if_pos hm] at hx
    have h2 := mem_filter_or_self
      (if (responses.filter fun r => valEqStr r.context_type ct).isEmpty then responses
       else responses.filter fun r => valEqStr r.context_type ct)
      (fun r => valEqStr r.mood mood)
    exact h1 x (h2 x hx)
  · rw [if_neg hm] at hx
    exact h1 x hx

/-- Helper: the two-stage filter of a nonempty response list is
nonempty — each stage falls back to its input when the filter empties
it. -/
theorem fallback_candidates_ne_nil (responses : List FallbackResponse) (ct mood : Value)
    (hne : responses ≠ []) : fallback_candidates responses ct mood ≠ [] := by
  simp only [fallback_candidates]
  have h1 := filter_or_self_ne_nil (responses.filter fun r => valEqStr r.context_type ct)
    responses hne
  by_cases hm : mood.truthy = true
  · rw [if_pos hm]
    exact filter_or_self_ne_nil _ _ h1
  · rw [if_neg hm]
    exact h1

/-- Helper: a list of positive weights has positive total weight. -/
theorem totalWeight_pos (l : List FallbackResponse) (hne : l ≠ [])
    (hw : ∀ x ∈ l, 1 ≤ x.weight) : 0 < totalWeight l := by
  cases l with
  | nil => exact absurd rfl hne
  | cons r rest =>
      have h1 := hw r (List.mem_cons_self r rest)
      simp only [totalWeight, List.map_cons, List.sum_cons]
      omega

/-- Helper: a draw inside the total mass lands on some list element. -/
theorem pickByWeight_ok_mem (l : List FallbackResponse) (k : Nat)
    (hk : k < totalWeight l) :
    ∃ x, pickByWeight l k = Except.ok x ∧ x ∈ l := by
  induction l generalizing k with
  | nil => simp [totalWeight] at hk
  | cons r rest ih =>
      by_cases h : k < r.weight
      · exact ⟨r, by simp [pickByWeight, h], List.mem_cons_self r rest⟩
      · have hk' : k - r.weight < totalWeight rest := by
          simp only [totalWeight, List.map_cons, List.sum_cons] at hk
          simp only [totalWeight]
          omega
        obtain ⟨x, hx, hmem⟩ := ih (k - r.weight) hk'
        exact ⟨x, by simp [pickByWeight, h, hx], List.mem_cons_of_mem r hmem⟩

/-- Helper: weighted random selection over a positive total mass
succeeds with an element of the list. -/
theorem randomChoices_ok_mem (l : List FallbackResponse) (rand : Nat)
    (h : totalWeight l ≠ 0) :
    ∃ x, randomChoices l rand = Except.ok x ∧ x ∈ l := by
  have hmod : rand % totalWeight l < totalWeight l :=
    Nat.mod_lt _ (Nat.pos_of_ne_zero h)
  obtain ⟨x, hx, hm⟩ := pickByWeight_ok_mem l _ hmod
  exact ⟨x, by simp [randomChoices, h, hx], hm⟩

/-- C8: for every subject, context tag and mood — under the invariant
that stored selection weights are at least 1 — the fallback lookup
returns a result: a subject with no authored responses yields the one
synthesized generic response, and otherwise the lookup succeeds with an
element of the two-stage candidate list (context-tag filter ignored when
it matches nothing, then mood filter ignored when it matches nothing),
which is provably nonempty. -/
theorem c8_fallback_lookup_never_empty (st : MgrState) (subject : SubjectMatter)
    (ct mood : Value) (rand : Nat)
    (hw : ∀ x ∈ (lookupA st.fallback_responses subject).getD [], 1 ≤ x.weight) :
    ((lookupA st.fallback_responses subject).getD [] = [] →
      get_fallback_response st subject ct mood rand =
        Except.ok (genericFallback subject ct)) ∧
    ((lookupA st.fallback_responses subject).getD [] ≠ [] →
      fallback_candidates ((lookupA st.fallback_responses subject).getD []) ct mood ≠ [] ∧
      ∃ fb, get_fallback_response st subject ct mood rand = Except.ok fb ∧
        fb ∈ fallback_candidates ((lookupA st.fallback_responses subject).getD []) ct mood) := by
  constructor
  · intro h
    simp [get_fallback_response, h]
  · intro h
    have hcand_ne := fallback_candidates_ne_nil _ ct mood h
    have hsub := fallback_candidates_subset
      ((lookupA st.fallback_responses subject).getD []) ct mood
    have hwpos : 0 < totalWeight
        (fallback_candidates ((lookupA st.fallback_responses subject).getD []) ct mood) :=
      totalWeight_pos _ hcand_ne (fun x hx => hw x (hsub x hx))
    obtain ⟨x, hx, hm⟩ := randomChoices_ok_mem _ rand (Nat.pos_iff_ne_zero.mp hwpos)
    refine ⟨hcand_ne, x, ?_, hm⟩
    have hne : ((lookupA st.fallback_responses subject).getD []).isEmpty = false := by
      cases hl : (lookupA st.fallback_responses subject).getD []
      · exact absurd hl h
      · rfl
    simp [get_fallback_response, hne, hx]

/-- Witness for C8 at a concrete subject with zero authored responses
(`motivation` in the fixture state): the lookup returns the synthesized
generic response. -/
theorem c8_fallback_lookup_never_empty_witness :
    get_fallback_response fixMgr SubjectMatter.motivation
      (Value.str "general") (Value.str "cheerful") 0 =
    Except.ok (genericFallback SubjectMatter.motivation (Value.str "general")) := by
  exact (c8_fallback_lookup_never_empty fixMgr SubjectMatter.motivation
    (Value.str "general") (Value.str "cheerful") 0 (by decide)).1 (by rfl)

end TeamOS

namespace TeamOS

/-- Helper: when every primary call fails, the retry loop makes exactly
`remaining` calls, sleeps `retry_delay * (attempt + 1)` after each
failed attempt except the last, and raises. -/
theorem retryPrimary_all_fail (cfg : AIModelConfig) (oracle : Oracle)
    (hfail : ∀ n, oracle.primary n = none) :
    ∀ (n a : Nat), retryPrimary cfg oracle a n =
      (Except.error (), n,
        (List.range (n - 1)).map
          (fun i : Nat => cfg.retry_delay * ((a : ℚ) + (i : ℚ) + 1))) := by
  intro n
  induction n with
  | zero => intro a; simp [retryPrimary]
  | succ n ih =>
      intro a
      simp only [retryPrimary, hfail a, provider_generate_response]
      by_cases hz : n = 0
      · subst hz; simp
      · simp only [if_neg hz, ih (a + 1)]
        obtain ⟨m, rfl⟩ := Nat.exists_eq_succ_of_ne_zero hz
        refine congrArg (Prod.mk (Except.error ())) ?_
        refine congrArg (Prod.mk (m + 1 + 1)) ?_
        rw [Nat.succ_sub_one, Nat.succ_sub_one, List.range_succ_eq_map,
          List.map_cons, List.map_map]
        congr 1
        · push_cast
          ring
        · have hfun : (fun i : Nat => cfg.retry_delay * (((a + 1 : Nat) : ℚ) + (i : ℚ) + 1)) =
              ((fun i : Nat => cfg.retry_delay * ((a : ℚ) + (i : ℚ) + 1)) ∘ Nat.succ) := by
            funext i
            simp only [Function.comp]
            push_cast
            ring
          rw [hfun]

/-- Helper: the back-off sleeps are non-decreasing when the delay is
non-negative. -/
theorem sleeps_chain (d : ℚ) (hd : 0 ≤ d) (a n : Nat) :
    List.Chain' (fun x y => x ≤ y)
      ((List.range n).map (fun i : Nat => d * ((a : ℚ) + (i : ℚ) + 1))) := by
  refine List.Pairwise.chain' ?_
  refine List.Pairwise.map _ (fun i j hij => ?_) (List.pairwise_lt_range n)
  have hle : (i : ℚ) ≤ (j : ℚ) := by exact_mod_cast hij.le
  have harg : (a : ℚ) + (i : ℚ) + 1 ≤ (a : ℚ) + (j : ℚ) + 1 := by linarith
  exact mul_le_mul_of_nonneg_left harg hd

/-- C6: with a configured subject whose cache misses and whose primary
provider passes the connectivity pre-check, a primary model that fails
deterministically on every attempt is invoked exactly `retry_attempts`
times, with sleeps `retry_delay * 1, retry_delay * 2, ...` between
consecutive attempts (linear back-off, non-decreasing); then the
configured non-static secondary model is called exactly once, and its
success is returned with provenance `fallback_ai` (the spec's
`secondary-model`). -/
theorem c6_primary_retries_then_secondary
    (svc : ServiceState) (env : Env) (subject : SubjectMatter) (context : Ctx)
    (oracle : Oracle) (now : Nat) (config : SubjectMatterConfig)
    (fm : AIModelConfig) (reply : ProviderReply) (up up2 : String)
    (hcfg : get_subject_config svc.mgr subject = some config)
    (hmiss : lookupA svc.mgr.response_cache (_generate_cache_key subject context) = none)
    (hconn : (check_connectivity svc.mgr env now config.primary_model.provider).1 = true)
    (hprov : svc.providers config.primary_model.provider = true)
    (hfmt : _format_user_prompt
        (check_connectivity svc.mgr env now config.primary_model.provider).2
        config.subject context = Except.ok up)
    (hfail : ∀ n, oracle.primary n = none)
    (hfm : config.fallback_model = some fm)
    (hfmp : ¬ fm.provider = AIProvider.fallback)
    (hfmprov : svc.providers fm.provider = true)
    (hfmt2 : _format_user_prompt
        (check_connectivity svc.mgr env now config.primary_model.provider).2
        subject context = Except.ok up2)
    (hsec : oracle.secondary = some reply)
    (hd : 0 ≤ config.primary_model.retry_delay) :
    (generate_response svc env subject context false oracle now).1 =
      Except.ok { provider_success fm reply with source := "fallback_ai" } ∧
    (generate_response svc env subject context false oracle now).2.2.primaryCalls =
      config.primary_model.retry_attempts ∧
    (generate_response svc env subject context false oracle now).2.2.sleeps =
      (List.range (config.primary_model.retry_attempts - 1)).map
        (fun i : Nat => config.primary_model.retry_delay * ((i : ℚ) + 1)) ∧
    List.Chain' (fun x y => x ≤ y)
      (generate_response svc env subject context false oracle now).2.2.sleeps ∧
    (generate_response svc env subject context false oracle now).2.2.secondaryCalls = 1 := by
  have hread :
      (if !false && config.cache_responses then
        get_cached_response svc.mgr now (_generate_cache_key subject context)
      else (none, svc.mgr)) = (none, svc.mgr) := by
    split
    · simp [get_cached_response, hmiss]
    · rfl
  have hrp := retryPrimary_all_fail config.primary_model oracle hfail
    config.primary_model.retry_attempts 0
  have hmain :
      generate_response svc env subject context false oracle now =
        (Except.ok { provider_success fm reply with source := "fallback_ai" },
          (check_connectivity svc.mgr env now config.primary_model.provider).2,
          { connectivityChecks := 1, primaryAttempted := true,
            primaryCalls := config.primary_model.retry_attempts,
            sleeps := (List.range (config.primary_model.retry_attempts - 1)).map
              (fun i : Nat => config.primary_model.retry_delay * ((0 : ℚ) + (i : ℚ) + 1)),
            secondaryCalls := 1 }) := by
    simp only [generate_response, hcfg, hread]
    simp only [generate_try_block, _generate_ai_response, _try_fallback_model,
      hconn, hprov, hfmt, hfmt2, hfm, hsec, hrp, provider_generate_response,
      if_neg hfmp, hfmprov, Bool.not_false, Bool.not_true, if_true, Nat.cast_zero,
      Bool.false_eq_true, if_false]
  refine ⟨?_, ?_, ?_, ?_, ?_⟩
  · rw [hmain]
  · rw [hmain]
  · rw [hmain]
    simp only
    congr 1
    funext i
    ring
  · rw [hmain]
    exact sleeps_chain config.primary_model.retry_delay hd 0 _
  · rw [hmain]

/-- Witness for C6 at the concrete fixture: three failing primary
attempts with sleeps of 1 s and 2 s, then one successful secondary
call returned with provenance `fallback_ai`. -/
theorem c6_primary_retries_then_secondary_witness :
    (generate_response fixSvc6 fixEnv SubjectMatter.task_creation fixCtx false
        fixFailOracle 1000).1 =
      Except.ok { provider_success fixSecondary { text := "sec text" } with
        source := "fallback_ai" } ∧
    (generate_response fixSvc6 fixEnv SubjectMatter.task_creation fixCtx false
        fixFailOracle 1000).2.2.primaryCalls = 3 ∧
    (generate_response fixSvc6 fixEnv SubjectMatter.task_creation fixCtx false
        fixFailOracle 1000).2.2.sleeps =
      (List.range (3 - 1)).map
        (fun i : Nat => fixCfg6.primary_model.retry_delay * ((i : ℚ) + 1)) ∧
    List.Chain' (fun x y => x ≤ y)
      (generate_response fixSvc6 fixEnv SubjectMatter.task_creation fixCtx false
        fixFailOracle 1000).2.2.sleeps ∧
    (generate_response fixSvc6 fixEnv SubjectMatter.task_creation fixCtx false
        fixFailOracle 1000).2.2.secondaryCalls = 1 := by
  exact c6_primary_retries_then_secondary fixSvc6 fixEnv SubjectMatter.task_creation
    fixCtx fixFailOracle 1000 fixCfg6 fixSecondary { text := "sec text" }
    "User is creating a task: T with priority 3 and difficulty 2"
    "User is creating a task: T with priority 3 and difficulty 2"
    (by rfl) (by rfl) (by rfl) (by rfl) (by rfl) (fun n => rfl)
    (by rfl) (by decide) (by rfl) (by rfl) (by rfl) (by norm_num [fixCfg6, fixCfg, fixPrimary])

end TeamOS
